import Mathlib

/-!
# basic-cpp-logger: the build-time resolver and the severity dispatch table

A shallow embedding of `include/logger/logger.h`.

* The preprocessor part of the header (lines 69-109) is a straight-line program over the
  set of defined macros.  The set is the record `Macros`, one boolean per macro name the
  header tests; each `#if ... #define ... #endif` block is one function `Macros → Macros`.
* The guards of the five template specialisations (lines 135, 157, 177, 197, 217) decide,
  per severity, whether `Logger<L>` is the printing specialisation or the primary template
  whose two `log` overloads have empty bodies.
* An output stream is the sequence of characters inserted into it so far; `out << x`
  appends the text form of `x`.  Stream error state and formatting flags belong to the
  standard library and are not modelled.
-/

namespace logging

/-! ## Data model -/

/-- The enumeration `LogType` (lines 114-120). -/
inductive LogType where
  | Debug
  | Info
  | Warning
  | Error
  | Critical
  deriving DecidableEq, Repr

/-- The macros the header tests with `defined(...)`: `true` means defined.  A value of this
type before line 69 is what the build passed on the command line; with no field set it is
a build with no flags. -/
structure Macros where
  NO_LOGGING : Bool := false
  DEBUG : Bool := false
  LOG_EVERYTHING : Bool := false
  NO_DEBUG_LOGGING : Bool := false
  NO_INFO_LOGGING : Bool := false
  NO_WARNING_LOGGING : Bool := false
  NO_ERROR_LOGGING : Bool := false
  NO_CRITICAL_LOGGING : Bool := false
  USE_DEBUG_LOGGER : Bool := false
  USE_INFO_LOGGER : Bool := false
  USE_WARNING_LOGGER : Bool := false
  USE_ERROR_LOGGER : Bool := false
  USE_CRITICAL_LOGGER : Bool := false
  deriving DecidableEq, Repr

/-! ## The preprocessor program (lines 69-109) -/

/-- Lines 69-85: under `NO_LOGGING`, define each of the five `NO_<LEVEL>_LOGGING` macros
that is not defined yet. -/
def noLoggingBlock (m : Macros) : Macros :=
  if m.NO_LOGGING then
    let m := if !m.NO_DEBUG_LOGGING then { m with NO_DEBUG_LOGGING := true } else m
    let m := if !m.NO_INFO_LOGGING then { m with NO_INFO_LOGGING := true } else m
    let m := if !m.NO_WARNING_LOGGING then { m with NO_WARNING_LOGGING := true } else m
    let m := if !m.NO_ERROR_LOGGING then { m with NO_ERROR_LOGGING := true } else m
    let m := if !m.NO_CRITICAL_LOGGING then { m with NO_CRITICAL_LOGGING := true } else m
    m
  else m

/-- Lines 88-92: the `#if ... #elif ... #endif` that picks the lowest level of the
baseline. -/
def baselineBlock (m : Macros) : Macros :=
  if (m.DEBUG || m.LOG_EVERYTHING) && !m.USE_DEBUG_LOGGER then
    { m with USE_DEBUG_LOGGER := true }
  else if !m.USE_ERROR_LOGGER then
    { m with USE_ERROR_LOGGER := true }
  else m

/-- Lines 95-97. -/
def cascadeInfo (m : Macros) : Macros :=
  if m.USE_DEBUG_LOGGER && !m.USE_INFO_LOGGER then { m with USE_INFO_LOGGER := true } else m

/-- Lines 99-101. -/
def cascadeWarning (m : Macros) : Macros :=
  if m.USE_INFO_LOGGER && !m.USE_WARNING_LOGGER then { m with USE_WARNING_LOGGER := true }
  else m

/-- Lines 103-105. -/
def cascadeError (m : Macros) : Macros :=
  if m.USE_WARNING_LOGGER && !m.USE_ERROR_LOGGER then { m with USE_ERROR_LOGGER := true }
  else m

/-- Lines 107-109. -/
def cascadeCritical (m : Macros) : Macros :=
  if m.USE_ERROR_LOGGER && !m.USE_CRITICAL_LOGGER then { m with USE_CRITICAL_LOGGER := true }
  else m

/-- Lines 69-109 in order: the macro set seen by the template code from line 112 on. -/
def preprocess (m : Macros) : Macros :=
  cascadeCritical (cascadeError (cascadeWarning (cascadeInfo (baselineBlock (noLoggingBlock m)))))

/-! ## The specialisation guards (lines 135, 157, 177, 197, 217) -/

/-- The `#if` guard in front of the specialisation `Logger<L>`, read on the macro set that
reaches it.  When it is `false` only the primary template (lines 123-132) exists for `L`. -/
def specialized (m : Macros) : LogType → Bool
  | LogType.Debug => m.USE_DEBUG_LOGGER && !m.NO_DEBUG_LOGGING
  | LogType.Info => m.USE_INFO_LOGGER && !m.NO_INFO_LOGGING
  | LogType.Warning => m.USE_WARNING_LOGGER && !m.NO_ERROR_LOGGING
  | LogType.Error => m.USE_ERROR_LOGGER && !m.NO_ERROR_LOGGING
  | LogType.Critical => m.USE_CRITICAL_LOGGER && !m.NO_CRITICAL_LOGGING

/-- The resolved activation flag of level `L` for a build whose command line defines
`cfg`: whether `Logger<L>` is the printing specialisation. -/
def ActivationFlag (cfg : Macros) (L : LogType) : Bool :=
  specialized (preprocess cfg) L

/-- Baseline of level `L`: whether `USE_<L>_LOGGER` is defined once line 109 is passed. -/
def baselineActive (cfg : Macros) : LogType → Bool
  | LogType.Debug => (preprocess cfg).USE_DEBUG_LOGGER
  | LogType.Info => (preprocess cfg).USE_INFO_LOGGER
  | LogType.Warning => (preprocess cfg).USE_WARNING_LOGGER
  | LogType.Error => (preprocess cfg).USE_ERROR_LOGGER
  | LogType.Critical => (preprocess cfg).USE_CRITICAL_LOGGER

/-- The command-line suppression flag `NO_<L>_LOGGING` of level `L`. -/
def suppressionFlag (cfg : Macros) : LogType → Bool
  | LogType.Debug => cfg.NO_DEBUG_LOGGING
  | LogType.Info => cfg.NO_INFO_LOGGING
  | LogType.Warning => cfg.NO_WARNING_LOGGING
  | LogType.Error => cfg.NO_ERROR_LOGGING
  | LogType.Critical => cfg.NO_CRITICAL_LOGGING

/-- The build asks for the verbose baseline: `DEBUG` or `LOG_EVERYTHING` is defined. -/
def verbose (cfg : Macros) : Bool := cfg.DEBUG || cfg.LOG_EVERYTHING

/-- None of `NO_LOGGING` and the five `NO_<LEVEL>_LOGGING` is defined. -/
def noSuppression (cfg : Macros) : Bool :=
  !cfg.NO_LOGGING && !cfg.NO_DEBUG_LOGGING && !cfg.NO_INFO_LOGGING &&
    !cfg.NO_WARNING_LOGGING && !cfg.NO_ERROR_LOGGING && !cfg.NO_CRITICAL_LOGGING

/-- The same command line with every suppression flag removed. -/
def withoutSuppression (cfg : Macros) : Macros :=
  { cfg with NO_LOGGING := false, NO_DEBUG_LOGGING := false, NO_INFO_LOGGING := false,
             NO_WARNING_LOGGING := false, NO_ERROR_LOGGING := false,
             NO_CRITICAL_LOGGING := false }

/-- The command line `cfg` with `NO_<L>_LOGGING` added. -/
def suppress (cfg : Macros) : LogType → Macros
  | LogType.Debug => { cfg with NO_DEBUG_LOGGING := true }
  | LogType.Info => { cfg with NO_INFO_LOGGING := true }
  | LogType.Warning => { cfg with NO_WARNING_LOGGING := true }
  | LogType.Error => { cfg with NO_ERROR_LOGGING := true }
  | LogType.Critical => { cfg with NO_CRITICAL_LOGGING := true }

/-- The same command line with `DEBUG` and `LOG_EVERYTHING` removed (default baseline). -/
def quiet (cfg : Macros) : Macros :=
  { cfg with DEBUG := false, LOG_EVERYTHING := false }

/-! ## Output streams and the two `log` overloads (lines 123-234) -/

/-- The identity of a `std::ostream` object; `cerr` is `std::cerr`. -/
inductive Ostream where
  | cerr
  | cout
  | other (id : Nat)
  deriving DecidableEq, Repr

/-- The state of the output streams: for each stream, the characters inserted so far. -/
abbrev Streams := Ostream → String

/-- No stream has received a character yet. -/
def Streams.empty : Streams := fun _ => ""

/-- The statement `out << x`, where `s` is the text form of `x`: `s` is appended to `out`. -/
def write (out : Ostream) (s : String) (σ : Streams) : Streams :=
  fun o => if o = out then σ o ++ s else σ o

/-- The string literal of the first insertion in the specialisation for `L`
(lines 146, 168, 188, 208, 228). -/
def tagLiteral : LogType → String
  | LogType.Debug => "[Debug]"
  | LogType.Info => "[Info]"
  | LogType.Warning => "[Warning]"
  | LogType.Error => "[Error]"
  | LogType.Critical => "[Critical]"

/-- Sample argument types with their `operator<<` text form: a C string, an `int`
and a `char`. -/
inductive Arg where
  | str (s : String)
  | int (i : Int)
  | chr (c : Char)
  deriving DecidableEq, Repr

/-- The characters `out << a` inserts for a sample argument. -/
def Arg.text : Arg → String
  | Arg.str s => s
  | Arg.int i => toString i
  | Arg.chr c => String.singleton c

section Log

variable {α : Type} (text : α → String)

/-- The body shared by the five specialisations of `log(std::ostream& out, Args... args)`
(lines 145-152 and siblings): insert the tag literal, then for each element of the pack,
left to right, `out << ' ' << arg`, then `out << '\n'`.  `text a` is what `out << a`
inserts for an argument `a`. -/
def specializedLogTo (tagLit : String) (out : Ostream) (args : List α) (σ : Streams) :
    Streams :=
  let σ := write out tagLit σ
  let σ := args.foldl (fun σ a => write out (text a) (write out " " σ)) σ
  write out "\n" σ

/-- The call `Logger<L>::log(out, args...)` in a build with command line `cfg`: the
specialisation when its guard holds, otherwise the primary template (line 127, empty
body). -/
def Logger.logTo (cfg : Macros) (L : LogType) (out : Ostream) (args : List α)
    (σ : Streams) : Streams :=
  if specialized (preprocess cfg) L then specializedLogTo text (tagLiteral L) out args σ
  else σ

/-- The call `Logger<L>::log(args...)` in a build with command line `cfg`: the
specialisation forwards to `Logger<L>::log(std::cerr, args...)` (lines 141, 163, 183, 203,
223), the primary template has an empty body (line 130). -/
def Logger.log (cfg : Macros) (L : LogType) (args : List α) (σ : Streams) : Streams :=
  if specialized (preprocess cfg) L then Logger.logTo text cfg L Ostream.cerr args σ
  else σ

/-! ### The output format in the words of the specification -/

/-- The name of a level as the specification writes it. -/
def LevelName : LogType → String
  | LogType.Debug => "Debug"
  | LogType.Info => "Info"
  | LogType.Warning => "Warning"
  | LogType.Error => "Error"
  | LogType.Critical => "Critical"

/-- For each argument in call order: one space, then the text form of the argument. -/
def argsText : List α → String
  | [] => ""
  | a :: as => " " ++ text a ++ argsText as

/-- The line of an active level: `[<LevelName>]`, the arguments, one line terminator. -/
def formatLine (L : LogType) (args : List α) : String :=
  "[" ++ LevelName L ++ "]" ++ argsText text args ++ "\n"

/-! ### Sequences of calls -/

/-- One call of a logger in a program: `Logger<level>::log(out, args...)` when `dest` is
`some out`, `Logger<level>::log(args...)` when it is `none`. -/
structure Call (α : Type) where
  level : LogType
  dest : Option Ostream
  args : List α

/-- The stream a call is directed at: the explicit destination, or `std::cerr` for the
overload without one. -/
def Call.target (c : Call α) : Ostream :=
  match c.dest with
  | some out => out
  | none => Ostream.cerr

/-- The effect of one call on the streams. -/
def Call.run (cfg : Macros) (c : Call α) (σ : Streams) : Streams :=
  match c.dest with
  | some out => Logger.logTo text cfg c.level out c.args σ
  | none => Logger.log text cfg c.level c.args σ

/-- The effect of a finite sequence of calls, executed in order. -/
def runCalls (cfg : Macros) : List (Call α) → Streams → Streams
  | [], σ => σ
  | c :: cs, σ => runCalls cfg cs (Call.run text cfg c σ)

/-- In call order, the formatted line of each call whose level is active; calls of inert
levels contribute nothing. -/
def activeLines (cfg : Macros) : List (Call α) → String
  | [] => ""
  | c :: cs =>
    (if ActivationFlag cfg c.level then formatLine text c.level c.args else "") ++
      activeLines cfg cs

/-- In call order, the formatted line of each call that is directed at `d` and whose level
is active. -/
def linesOn (cfg : Macros) (d : Ostream) : List (Call α) → String
  | [] => ""
  | c :: cs =>
    (if c.target = d ∧ ActivationFlag cfg c.level = true then formatLine text c.level c.args
      else "") ++ linesOn cfg d cs

end Log

/-- The position of a level in the enumeration (lines 114-120): the order of urgency
Debug < Info < Warning < Error < Critical. -/
def LogType.rank : LogType → Nat
  | LogType.Debug => 0
  | LogType.Info => 1
  | LogType.Warning => 2
  | LogType.Error => 3
  | LogType.Critical => 4

/-- The calls made by the usage example `something(int a)` of the header comment
(lines 13-29), in order. -/
def something (a : Int) : List (Call Arg) :=
  [{ level := LogType.Debug, dest := some Ostream.cout,
     args := [Arg.str "a has a value of", Arg.int a] }] ++
  (if a ≠ 0 then
    [{ level := LogType.Info, dest := none, args := [Arg.str "a is not 0"] }] else []) ++
  (if a > 25 then
    [{ level := LogType.Warning, dest := none,
       args := [Arg.str "Oh goodness a is greater than 25!"] }] else []) ++
  (if a > 50 then
    [{ level := LogType.Error, dest := some Ostream.cerr,
       args := [Arg.str "a cannot be greater than 50!"] }] else []) ++
  (if a ≥ 100 then
    [{ level := LogType.Critical, dest := some Ostream.cerr,
       args := [Arg.str "a is greater or equal to 100, shutting down!"] }] else [])

/-! ## What the preprocessor program computes, macro by macro -/

theorem noLoggingBlock_eq (m : Macros) :
    noLoggingBlock m =
      { m with NO_DEBUG_LOGGING := m.NO_LOGGING || m.NO_DEBUG_LOGGING,
               NO_INFO_LOGGING := m.NO_LOGGING || m.NO_INFO_LOGGING,
               NO_WARNING_LOGGING := m.NO_LOGGING || m.NO_WARNING_LOGGING,
               NO_ERROR_LOGGING := m.NO_LOGGING || m.NO_ERROR_LOGGING,
               NO_CRITICAL_LOGGING := m.NO_LOGGING || m.NO_CRITICAL_LOGGING } := by
  rcases m with ⟨a, b, c, d, e, f, g, h, i, j, k, l, n⟩
  cases a <;> cases d <;> cases e <;> cases f <;> cases g <;> cases h <;> rfl

theorem baselineBlock_eq (m : Macros) :
    baselineBlock m =
      { m with USE_DEBUG_LOGGER := m.USE_DEBUG_LOGGER || m.DEBUG || m.LOG_EVERYTHING,
               USE_ERROR_LOGGER :=
                 m.USE_ERROR_LOGGER || m.USE_DEBUG_LOGGER || !(m.DEBUG || m.LOG_EVERYTHING) } := by
  rcases m with ⟨a, b, c, d, e, f, g, h, i, j, k, l, n⟩
  cases b <;> cases c <;> cases i <;> cases l <;> rfl

theorem cascadeInfo_eq (m : Macros) :
    cascadeInfo m = { m with USE_INFO_LOGGER := m.USE_INFO_LOGGER || m.USE_DEBUG_LOGGER } := by
  rcases m with ⟨a, b, c, d, e, f, g, h, i, j, k, l, n⟩
  cases i <;> cases j <;> rfl

theorem cascadeWarning_eq (m : Macros) :
    cascadeWarning m =
      { m with USE_WARNING_LOGGER := m.USE_WARNING_LOGGER || m.USE_INFO_LOGGER } := by
  rcases m with ⟨a, b, c, d, e, f, g, h, i, j, k, l, n⟩
  cases j <;> cases k <;> rfl

theorem cascadeError_eq (m : Macros) :
    cascadeError m =
      { m with USE_ERROR_LOGGER := m.USE_ERROR_LOGGER || m.USE_WARNING_LOGGER } := by
  rcases m with ⟨a, b, c, d, e, f, g, h, i, j, k, l, n⟩
  cases k <;> cases l <;> rfl

theorem cascadeCritical_eq (m : Macros) :
    cascadeCritical m =
      { m with USE_CRITICAL_LOGGER := m.USE_CRITICAL_LOGGER || m.USE_ERROR_LOGGER } := by
  rcases m with ⟨a, b, c, d, e, f, g, h, i, j, k, l, n⟩
  cases l <;> cases n <;> rfl

/-- The macro set after line 109, in closed form. -/
theorem preprocess_eq (m : Macros) :
    preprocess m =
      { NO_LOGGING := m.NO_LOGGING, DEBUG := m.DEBUG, LOG_EVERYTHING := m.LOG_EVERYTHING,
        NO_DEBUG_LOGGING := m.NO_LOGGING || m.NO_DEBUG_LOGGING,
        NO_INFO_LOGGING := m.NO_LOGGING || m.NO_INFO_LOGGING,
        NO_WARNING_LOGGING := m.NO_LOGGING || m.NO_WARNING_LOGGING,
        NO_ERROR_LOGGING := m.NO_LOGGING || m.NO_ERROR_LOGGING,
        NO_CRITICAL_LOGGING := m.NO_LOGGING || m.NO_CRITICAL_LOGGING,
        USE_DEBUG_LOGGER := m.USE_DEBUG_LOGGER || m.DEBUG || m.LOG_EVERYTHING,
        USE_INFO_LOGGER := m.USE_INFO_LOGGER || m.USE_DEBUG_LOGGER || m.DEBUG || m.LOG_EVERYTHING,
        USE_WARNING_LOGGER :=
          m.USE_WARNING_LOGGER || m.USE_INFO_LOGGER || m.USE_DEBUG_LOGGER || m.DEBUG ||
            m.LOG_EVERYTHING,
        USE_ERROR_LOGGER := true,
        USE_CRITICAL_LOGGER := true } := by
  simp only [preprocess, noLoggingBlock_eq, baselineBlock_eq, cascadeInfo_eq, cascadeWarning_eq,
    cascadeError_eq, cascadeCritical_eq]
  rcases m with ⟨a, b, c, d, e, f, g, h, i, j, k, l, n⟩
  cases b <;> cases c <;> cases i <;> cases j <;> cases k <;> cases l <;> cases n <;> rfl

/-- The five resolved activation flags as boolean expressions of the command line. -/
theorem ActivationFlag_eq (c : Macros) (L : LogType) :
    ActivationFlag c L =
      match L with
      | LogType.Debug =>
          (c.USE_DEBUG_LOGGER || c.DEBUG || c.LOG_EVERYTHING) &&
            !(c.NO_LOGGING || c.NO_DEBUG_LOGGING)
      | LogType.Info =>
          (c.USE_INFO_LOGGER || c.USE_DEBUG_LOGGER || c.DEBUG || c.LOG_EVERYTHING) &&
            !(c.NO_LOGGING || c.NO_INFO_LOGGING)
      | LogType.Warning =>
          (c.USE_WARNING_LOGGER || c.USE_INFO_LOGGER || c.USE_DEBUG_LOGGER || c.DEBUG ||
              c.LOG_EVERYTHING) &&
            !(c.NO_LOGGING || c.NO_ERROR_LOGGING)
      | LogType.Error => !(c.NO_LOGGING || c.NO_ERROR_LOGGING)
      | LogType.Critical => !(c.NO_LOGGING || c.NO_CRITICAL_LOGGING) := by
  cases L <;> simp [ActivationFlag, specialized, preprocess_eq]

/-- The baseline of each level as a boolean expression of the command line. -/
theorem baselineActive_eq (c : Macros) (L : LogType) :
    baselineActive c L =
      match L with
      | LogType.Debug => c.USE_DEBUG_LOGGER || c.DEBUG || c.LOG_EVERYTHING
      | LogType.Info => c.USE_INFO_LOGGER || c.USE_DEBUG_LOGGER || c.DEBUG || c.LOG_EVERYTHING
      | LogType.Warning =>
          c.USE_WARNING_LOGGER || c.USE_INFO_LOGGER || c.USE_DEBUG_LOGGER || c.DEBUG ||
            c.LOG_EVERYTHING
      | LogType.Error => true
      | LogType.Critical => true := by
  cases L <;> simp [baselineActive, preprocess_eq]

/-- For the four levels whose guard tests their own flag, `NO_<L>_LOGGING` wins over every
baseline. -/
theorem suppressionFlag_forces_inert (cfg : Macros) (L : LogType) (hL : L ≠ LogType.Warning)
    (h : suppressionFlag cfg L = true) : ActivationFlag cfg L = false := by
  cases L <;> simp_all [ActivationFlag_eq, suppressionFlag]

/-- Suppressing one level other than Error leaves the other four levels at their
baseline, when nothing else is suppressed. -/
theorem suppress_frame (cfg : Macros) (L K : LogType) (hL : L ≠ LogType.Error)
    (hK : K ≠ L) (h : noSuppression cfg = true) :
    ActivationFlag (suppress cfg L) K = baselineActive (suppress cfg L) K := by
  simp only [noSuppression, Bool.and_eq_true, Bool.not_eq_true'] at h
  obtain ⟨⟨⟨⟨⟨h1, h2⟩, h3⟩, h4⟩, h5⟩, h6⟩ := h
  cases L <;> cases K <;>
    simp_all [ActivationFlag_eq, baselineActive_eq, suppress]

/-- The documented build `LOG_EVERYTHING` with `NO_INFO_LOGGING` (lines 47-52): Debug,
Warning, Error and Critical print, Info does not. -/
theorem LOG_EVERYTHING_NO_INFO_LOGGING :
    ActivationFlag { LOG_EVERYTHING := true, NO_INFO_LOGGING := true } LogType.Debug = true ∧
    ActivationFlag { LOG_EVERYTHING := true, NO_INFO_LOGGING := true } LogType.Info = false ∧
    ActivationFlag { LOG_EVERYTHING := true, NO_INFO_LOGGING := true } LogType.Warning = true ∧
    ActivationFlag { LOG_EVERYTHING := true, NO_INFO_LOGGING := true } LogType.Error = true ∧
    ActivationFlag { LOG_EVERYTHING := true, NO_INFO_LOGGING := true } LogType.Critical = true := by
  decide

/-! ## Claims about the resolver -/

/-- C1 (defect in the code): the guard of `Logger<LogType::Warning>` (line 177) tests
`NO_ERROR_LOGGING` where the four sibling guards test the level's own flag.  In the build
`LOG_EVERYTHING` with `NO_WARNING_LOGGING` the suppression flag of Warning is set and the
Warning level is active all the same, so "own flag set implies inert" fails. -/
theorem NO_WARNING_LOGGING_not_honoured :
    suppressionFlag { LOG_EVERYTHING := true, NO_WARNING_LOGGING := true } LogType.Warning = true ∧
    ActivationFlag { LOG_EVERYTHING := true, NO_WARNING_LOGGING := true } LogType.Warning = true ∧
    ¬ (∀ (cfg : Macros) (L : LogType),
        suppressionFlag cfg L = true → ActivationFlag cfg L = false) := by
  refine ⟨by decide, by decide, fun h => ?_⟩
  have := h { LOG_EVERYTHING := true, NO_WARNING_LOGGING := true } LogType.Warning (by decide)
  revert this
  decide

/-- C2 (defect in the code, the same guard as in C1): in the build `LOG_EVERYTHING` with
only `NO_ERROR_LOGGING` added, the Warning level, whose baseline is active and whose own
flag is not set, is inert: suppressing Error also removes Warning. -/
theorem NO_ERROR_LOGGING_suppresses_Warning :
    noSuppression { LOG_EVERYTHING := true } = true ∧
    baselineActive (suppress { LOG_EVERYTHING := true } LogType.Error) LogType.Warning = true ∧
    ActivationFlag { LOG_EVERYTHING := true } LogType.Warning = true ∧
    ActivationFlag (suppress { LOG_EVERYTHING := true } LogType.Error) LogType.Warning = false := by
  decide

/-- C3: when `NO_LOGGING` is defined, each of the five levels is inert, whatever else the
command line defines. -/
theorem NO_LOGGING_forces_all_inert (cfg : Macros) (h : cfg.NO_LOGGING = true) (L : LogType) :
    ActivationFlag cfg L = false := by
  cases L <;> simp [ActivationFlag_eq, h]

theorem NO_LOGGING_forces_all_inert_witness :
    ({ NO_LOGGING := true, DEBUG := true, LOG_EVERYTHING := true,
       USE_DEBUG_LOGGER := true } : Macros).NO_LOGGING = true ∧
    ActivationFlag { NO_LOGGING := true, DEBUG := true, LOG_EVERYTHING := true,
                     USE_DEBUG_LOGGER := true } LogType.Debug = false ∧
    ActivationFlag { NO_LOGGING := true, DEBUG := true, LOG_EVERYTHING := true,
                     USE_DEBUG_LOGGER := true } LogType.Critical = false :=
  ⟨rfl, NO_LOGGING_forces_all_inert _ rfl _, NO_LOGGING_forces_all_inert _ rfl _⟩

/-- C4: with no macro defined on the command line, exactly Error and Critical are active
and Debug, Info, Warning are inert. -/
theorem default_configuration :
    ActivationFlag {} LogType.Debug = false ∧
    ActivationFlag {} LogType.Info = false ∧
    ActivationFlag {} LogType.Warning = false ∧
    ActivationFlag {} LogType.Error = true ∧
    ActivationFlag {} LogType.Critical = true := by
  decide

/-- C5: under the verbose baseline (a) with no suppression flag all five levels are active,
(b) which is the active set of the default baseline together with Debug, Info, Warning, and
(c) for any fixed suppression flags every level active under the default baseline is
active under the verbose one. -/
theorem verbose_superset_of_default (cfg : Macros) (hv : verbose cfg = true) :
    (noSuppression cfg = true → ∀ L, ActivationFlag cfg L = true) ∧
    (noSuppression cfg = true → ∀ L, ActivationFlag cfg L =
      (ActivationFlag (quiet cfg) L ||
        decide (L ∈ [LogType.Debug, LogType.Info, LogType.Warning]))) ∧
    (∀ L, ActivationFlag (quiet cfg) L = true → ActivationFlag cfg L = true) := by
  simp only [verbose, Bool.or_eq_true] at hv
  refine ⟨fun h L => ?_, fun h L => ?_, fun L hq => ?_⟩
  · simp only [noSuppression, Bool.and_eq_true, Bool.not_eq_true'] at h
    obtain ⟨⟨⟨⟨⟨h1, h2⟩, h3⟩, h4⟩, h5⟩, h6⟩ := h
    rcases hv with hv | hv <;> cases L <;> simp [ActivationFlag_eq, *]
  · simp only [noSuppression, Bool.and_eq_true, Bool.not_eq_true'] at h
    obtain ⟨⟨⟨⟨⟨h1, h2⟩, h3⟩, h4⟩, h5⟩, h6⟩ := h
    rcases hv with hv | hv <;> cases L <;> simp [ActivationFlag_eq, quiet, *]
  · rcases hv with hv | hv <;> cases L <;>
      simp_all [ActivationFlag_eq, quiet]

theorem verbose_superset_of_default_witness :
    verbose { DEBUG := true } = true ∧
    ActivationFlag { DEBUG := true } LogType.Debug = true ∧
    ActivationFlag { DEBUG := true } LogType.Info = true ∧
    ActivationFlag { DEBUG := true } LogType.Warning = true ∧
    ActivationFlag { DEBUG := true } LogType.Error = true ∧
    ActivationFlag { DEBUG := true } LogType.Critical = true :=
  ⟨rfl, (verbose_superset_of_default { DEBUG := true } rfl).1 rfl _,
    (verbose_superset_of_default { DEBUG := true } rfl).1 rfl _,
    (verbose_superset_of_default { DEBUG := true } rfl).1 rfl _,
    (verbose_superset_of_default { DEBUG := true } rfl).2.2 _ (by decide),
    (verbose_superset_of_default { DEBUG := true } rfl).2.2 _ (by decide)⟩

/-- C6: for every setting of the other macros, defining only `DEBUG`, only
`LOG_EVERYTHING`, or both gives the same five activation flags. -/
theorem DEBUG_LOG_EVERYTHING_interchangeable (cfg : Macros) (L : LogType) :
    ActivationFlag { cfg with DEBUG := true, LOG_EVERYTHING := false } L =
      ActivationFlag { cfg with DEBUG := false, LOG_EVERYTHING := true } L ∧
    ActivationFlag { cfg with DEBUG := true, LOG_EVERYTHING := false } L =
      ActivationFlag { cfg with DEBUG := true, LOG_EVERYTHING := true } L := by
  cases L <;> simp [ActivationFlag_eq]

/-! ## The dispatch table -/

section LogProofs

variable {α : Type} (text : α → String)

theorem write_same (out : Ostream) (s : String) (σ : Streams) :
    write out s σ out = σ out ++ s := by
  simp [write]

theorem write_other (out o : Ostream) (s : String) (σ : Streams) (h : o ≠ out) :
    write out s σ o = σ o := by
  simp [write, h]

/-- The loop over the parameter pack appends `argsText` to `out`. -/
theorem foldl_write_same (out : Ostream) (args : List α) (σ : Streams) :
    args.foldl (fun σ a => write out (text a) (write out " " σ)) σ out =
      σ out ++ argsText text args := by
  induction args generalizing σ with
  | nil => simp [argsText]
  | cons a as ih =>
    rw [List.foldl_cons, ih, write_same, write_same, argsText]
    simp only [String.append_assoc]

/-- The loop over the parameter pack touches no other stream. -/
theorem foldl_write_other (out o : Ostream) (args : List α) (σ : Streams) (h : o ≠ out) :
    args.foldl (fun σ a => write out (text a) (write out " " σ)) σ o = σ o := by
  induction args generalizing σ with
  | nil => rfl
  | cons a as ih =>
    rw [List.foldl_cons, ih, write_other _ _ _ _ h, write_other _ _ _ _ h]

theorem tagLiteral_eq (L : LogType) : tagLiteral L = "[" ++ LevelName L ++ "]" := by
  cases L <;> decide

/-- What a printing specialisation leaves on its destination. -/
theorem specializedLogTo_same (L : LogType) (out : Ostream) (args : List α) (σ : Streams) :
    specializedLogTo text (tagLiteral L) out args σ out = σ out ++ formatLine text L args := by
  simp only [specializedLogTo, write_same, foldl_write_same, formatLine, tagLiteral_eq,
    String.append_assoc]

/-- A printing specialisation touches no stream but its destination. -/
theorem specializedLogTo_other (tagLit : String) (out o : Ostream) (args : List α)
    (σ : Streams) (h : o ≠ out) :
    specializedLogTo text tagLit out args σ o = σ o := by
  simp only [specializedLogTo, write_other _ _ _ _ h, foldl_write_other _ _ _ _ _ h]

/-- C7: for an active level, `log(dest, a1, ..., an)` appends to `dest` exactly
`[<LevelName>]`, then for each argument in call order one space and the argument's text
form, then one line terminator; with no argument that is `[<LevelName>]` and the
terminator. -/
theorem active_output_format (cfg : Macros) (L : LogType) (h : ActivationFlag cfg L = true)
    (dest : Ostream) (args : List α) (σ : Streams) :
    Logger.logTo text cfg L dest args σ dest = σ dest ++ formatLine text L args ∧
    Logger.logTo text cfg L dest [] σ dest = σ dest ++ ("[" ++ LevelName L ++ "]\n") := by
  unfold ActivationFlag at h
  simp only [Logger.logTo, h, if_true, specializedLogTo_same]
  refine ⟨trivial, ?_⟩
  simp only [formatLine, argsText, String.append_assoc]
  cases L <;> rfl

theorem active_output_format_witness :
    ActivationFlag {} LogType.Error = true ∧
    Logger.logTo Arg.text {} LogType.Error Ostream.cout
        [Arg.str "a cannot be greater than", Arg.int 50] Streams.empty Ostream.cout =
      "[Error] a cannot be greater than 50\n" ∧
    Logger.logTo Arg.text {} LogType.Error Ostream.cout [] Streams.empty Ostream.cout =
      "[Error]\n" :=
  ⟨by decide,
   (active_output_format Arg.text {} LogType.Error (by decide) Ostream.cout
      [Arg.str "a cannot be greater than", Arg.int 50] Streams.empty).1.trans (by decide),
   (active_output_format Arg.text {} LogType.Error (by decide) Ostream.cout
      [Arg.str "a cannot be greater than", Arg.int 50] Streams.empty).2.trans (by decide)⟩

/-- C8: for an inert level both call shapes, with any argument list, leave every stream
(the explicit destination and standard error among them) exactly as it was. -/
theorem inert_writes_nothing (cfg : Macros) (L : LogType) (h : ActivationFlag cfg L = false)
    (dest : Ostream) (args : List α) (σ : Streams) :
    Logger.logTo text cfg L dest args σ = σ ∧ Logger.log text cfg L args σ = σ := by
  unfold ActivationFlag at h
  simp [Logger.logTo, Logger.log, h]

theorem inert_writes_nothing_witness :
    ActivationFlag {} LogType.Debug = false ∧
    Logger.logTo Arg.text {} LogType.Debug Ostream.cout
        [Arg.str "a has a value of", Arg.int 100] Streams.empty = Streams.empty ∧
    Logger.log Arg.text {} LogType.Debug
        [Arg.str "a has a value of", Arg.int 100] Streams.empty = Streams.empty :=
  ⟨by decide,
   (inert_writes_nothing Arg.text {} LogType.Debug (by decide) Ostream.cout _ _).1,
   (inert_writes_nothing Arg.text {} LogType.Debug (by decide) Ostream.cout _ _).2⟩

/-- C9: for an active level, `log(a1, ..., an)` without a destination is
`log(std::cerr, a1, ..., an)`: the two calls leave the same stream state, in which standard
error has received the formatted line. -/
theorem default_destination_is_cerr (cfg : Macros) (L : LogType)
    (h : ActivationFlag cfg L = true) (args : List α) (σ : Streams) :
    Logger.log text cfg L args σ = Logger.logTo text cfg L Ostream.cerr args σ ∧
    Logger.log text cfg L args σ Ostream.cerr = σ Ostream.cerr ++ formatLine text L args := by
  unfold ActivationFlag at h
  simp only [Logger.log, Logger.logTo, h, if_true, specializedLogTo_same, and_self]

theorem default_destination_is_cerr_witness :
    ActivationFlag {} LogType.Critical = true ∧
    Logger.log Arg.text {} LogType.Critical [Arg.str "shutting down", Arg.chr '!']
        Streams.empty Ostream.cerr = "[Critical] shutting down !\n" :=
  ⟨by decide,
   (default_destination_is_cerr Arg.text {} LogType.Critical (by decide)
      [Arg.str "shutting down", Arg.chr '!'] Streams.empty).2.trans (by decide)⟩

/-- What one call leaves on a stream `d`: its line when the call is directed at `d` and
its level is active, nothing otherwise. -/
theorem Call.run_content (cfg : Macros) (c : Call α) (d : Ostream) (σ : Streams) :
    Call.run text cfg c σ d =
      σ d ++ (if c.target = d ∧ ActivationFlag cfg c.level = true
        then formatLine text c.level c.args else "") := by
  rcases c with ⟨L, dest, args⟩
  by_cases hA : specialized (preprocess cfg) L = true
  · cases dest with
    | none =>
      by_cases hd : Ostream.cerr = d
      · subst hd
        simp [Call.run, Call.target, Logger.log, Logger.logTo, ActivationFlag, hA,
          specializedLogTo_same]
      · have hd2 : d ≠ Ostream.cerr := fun h => hd h.symm
        simp [Call.run, Call.target, Logger.log, Logger.logTo, ActivationFlag, hA, hd,
          specializedLogTo_other _ _ _ _ _ _ hd2]
    | some out =>
      by_cases hd : out = d
      · subst hd
        simp [Call.run, Call.target, Logger.logTo, ActivationFlag, hA, specializedLogTo_same]
      · have hd2 : d ≠ out := fun h => hd h.symm
        simp [Call.run, Call.target, Logger.logTo, ActivationFlag, hA, hd,
          specializedLogTo_other _ _ _ _ _ _ hd2]
  · cases dest <;> simp [Call.run, Logger.log, Logger.logTo, ActivationFlag, hA]

/-- The content of every stream after a sequence of calls with mixed destinations. -/
theorem runCalls_content (cfg : Macros) (calls : List (Call α)) (d : Ostream) (σ : Streams) :
    runCalls text cfg calls σ d = σ d ++ linesOn text cfg d calls := by
  induction calls generalizing σ with
  | nil => simp [runCalls, linesOn]
  | cons c cs ih =>
    rw [runCalls, ih, Call.run_content, linesOn, String.append_assoc]

/-- When every call is directed at `d`, the lines on `d` are the lines of the active
calls. -/
theorem linesOn_eq_activeLines (cfg : Macros) (calls : List (Call α)) (d : Ostream)
    (h : ∀ c ∈ calls, c.target = d) :
    linesOn text cfg d calls = activeLines text cfg calls := by
  induction calls with
  | nil => rfl
  | cons c cs ih =>
    have hc : c.target = d := h c (List.mem_cons_self _ _)
    have hcs : ∀ c ∈ cs, c.target = d := fun x hx => h x (List.mem_cons_of_mem _ hx)
    simp [linesOn, activeLines, ih hcs, hc]

/-- When every call is directed at `d`, no line lands on another stream. -/
theorem linesOn_other (cfg : Macros) (calls : List (Call α)) (d o : Ostream)
    (h : ∀ c ∈ calls, c.target = d) (ho : o ≠ d) :
    linesOn text cfg o calls = "" := by
  induction calls with
  | nil => rfl
  | cons c cs ih =>
    have hc : c.target = d := h c (List.mem_cons_self _ _)
    have hcs : ∀ c ∈ cs, c.target = d := fun x hx => h x (List.mem_cons_of_mem _ hx)
    have hne : ¬ c.target = o := fun e => ho (e.symm.trans hc)
    simp [linesOn, ih hcs, hne]

/-- C11: for an active level and an explicit destination other than standard error,
`log(dest, a1, ..., an)` leaves standard error, and every stream other than `dest`,
unchanged, and `dest` receives the whole line (tag, arguments, terminator). -/
theorem single_destination (cfg : Macros) (L : LogType) (h : ActivationFlag cfg L = true)
    (dest : Ostream) (hd : dest ≠ Ostream.cerr) (args : List α) (σ : Streams) :
    Logger.logTo text cfg L dest args σ Ostream.cerr = σ Ostream.cerr ∧
    (∀ o, o ≠ dest → Logger.logTo text cfg L dest args σ o = σ o) ∧
    Logger.logTo text cfg L dest args σ dest = σ dest ++ formatLine text L args := by
  unfold ActivationFlag at h
  simp only [Logger.logTo, h, if_true, specializedLogTo_same, and_true]
  exact ⟨specializedLogTo_other _ _ _ _ _ _ (fun e => hd e.symm),
    fun o ho => specializedLogTo_other _ _ _ _ _ _ ho⟩

theorem single_destination_witness :
    ActivationFlag {} LogType.Error = true ∧ Ostream.other 7 ≠ Ostream.cerr ∧
    Logger.logTo Arg.text {} LogType.Error (Ostream.other 7) [Arg.str "bad", Arg.int 5]
        (write Ostream.cerr "earlier\n" Streams.empty) Ostream.cerr = "earlier\n" ∧
    Logger.logTo Arg.text {} LogType.Error (Ostream.other 7) [Arg.str "bad", Arg.int 5]
        (write Ostream.cerr "earlier\n" Streams.empty) (Ostream.other 7) = "[Error] bad 5\n" :=
  ⟨by decide, by decide,
   (single_destination Arg.text {} LogType.Error (by decide) (Ostream.other 7) (by decide)
      [Arg.str "bad", Arg.int 5] (write Ostream.cerr "earlier\n" Streams.empty)).1.trans
      (by decide),
   (single_destination Arg.text {} LogType.Error (by decide) (Ostream.other 7) (by decide)
      [Arg.str "bad", Arg.int 5] (write Ostream.cerr "earlier\n" Streams.empty)).2.2.trans
      (by decide)⟩

/-- C12: for every build and every finite sequence of calls directed at one destination
`d`, the final content of `d` is its initial content followed, in call order, by the line
of each call whose level is active; inert calls contribute nothing, and no other stream
changes. -/
theorem append_only_sequencing (cfg : Macros) (calls : List (Call α)) (d : Ostream)
    (h : ∀ c ∈ calls, c.target = d) (σ : Streams) :
    runCalls text cfg calls σ d = σ d ++ activeLines text cfg calls ∧
    (∀ o, o ≠ d → runCalls text cfg calls σ o = σ o) := by
  refine ⟨?_, fun o ho => ?_⟩
  · rw [runCalls_content, linesOn_eq_activeLines text cfg calls d h]
  · rw [runCalls_content, linesOn_other text cfg calls d o h ho, String.append_empty]

theorem append_only_sequencing_witness :
    (∀ c ∈ (something 100).drop 1, c.target = Ostream.cerr) ∧
    runCalls Arg.text {} ((something 100).drop 1) Streams.empty Ostream.cerr =
      "[Error] a cannot be greater than 50!\n[Critical] a is greater or equal to 100, shutting down!\n" :=
  ⟨by decide,
   (append_only_sequencing Arg.text {} ((something 100).drop 1) Ostream.cerr (by decide)
      Streams.empty).1.trans (by decide)⟩

end LogProofs

/-- The usage example of the header comment called with 100 in a build with no flags
(lines 31-35): standard error receives the Error line and the Critical line, standard
output receives nothing. -/
theorem something_100_no_flags :
    (something 100).map (fun c => c.level) =
      [LogType.Debug, LogType.Info, LogType.Warning, LogType.Error, LogType.Critical] ∧
    runCalls Arg.text {} (something 100) Streams.empty Ostream.cerr =
      "[Error] a cannot be greater than 50!\n[Critical] a is greater or equal to 100, shutting down!\n" ∧
    runCalls Arg.text {} (something 100) Streams.empty Ostream.cout = "" := by
  decide

/-! ## Claims about the baseline and the coded guards -/

/-- C13: for every command line, pre-defined `USE_<LEVEL>_LOGGER` macros included, the
baseline after line 109 is upward closed in urgency: a baseline-active level makes every
strictly more urgent level baseline-active. -/
theorem baseline_upward_closed (cfg : Macros) (L K : LogType) (hLK : L.rank < K.rank)
    (hL : baselineActive cfg L = true) : baselineActive cfg K = true := by
  cases L <;> cases K <;>
    simp_all [baselineActive_eq, LogType.rank] <;> tauto

theorem baseline_upward_closed_witness :
    LogType.Info.rank < LogType.Warning.rank ∧
    baselineActive { USE_INFO_LOGGER := true } LogType.Info = true ∧
    baselineActive { USE_INFO_LOGGER := true } LogType.Warning = true :=
  ⟨by decide, by decide,
   baseline_upward_closed { USE_INFO_LOGGER := true } LogType.Info LogType.Warning
     (by decide) (by decide)⟩

/-- C14: as coded, Warning is active exactly when its baseline is active and neither
`NO_ERROR_LOGGING` nor `NO_LOGGING` is defined; redefining `NO_WARNING_LOGGING` alone never
changes the result. -/
theorem Warning_activation_as_coded (cfg : Macros) (b : Bool) :
    (ActivationFlag cfg LogType.Warning = true ↔
      (baselineActive cfg LogType.Warning = true ∧ cfg.NO_ERROR_LOGGING = false ∧
        cfg.NO_LOGGING = false)) ∧
    ActivationFlag { cfg with NO_WARNING_LOGGING := b } LogType.Warning =
      ActivationFlag cfg LogType.Warning := by
  constructor
  · simp only [ActivationFlag_eq, baselineActive_eq]
    cases cfg.NO_ERROR_LOGGING <;> cases cfg.NO_LOGGING <;> simp
  · simp only [ActivationFlag_eq]

/-- C15: for every command line, Error is active exactly when neither `NO_ERROR_LOGGING`
nor `NO_LOGGING` is defined, and Critical exactly when neither `NO_CRITICAL_LOGGING` nor
`NO_LOGGING` is defined. -/
theorem Error_Critical_only_suppressed (cfg : Macros) :
    (ActivationFlag cfg LogType.Error = true ↔
      (cfg.NO_ERROR_LOGGING = false ∧ cfg.NO_LOGGING = false)) ∧
    (ActivationFlag cfg LogType.Critical = true ↔
      (cfg.NO_CRITICAL_LOGGING = false ∧ cfg.NO_LOGGING = false)) := by
  simp only [ActivationFlag_eq]
  cases cfg.NO_ERROR_LOGGING <;> cases cfg.NO_CRITICAL_LOGGING <;> cases cfg.NO_LOGGING <;>
    simp

end logging
